import Mathlib

/-!
Shallow embedding of the request-checking and authorization pipeline of the
authorization-wrapper-service (src/app.js) and proofs about it.

The embedding models the Express middleware chain of app.js:
  1. the checking/authorization middleware (lines 19-28), which calls
     `ensureSparqlParams` and then `ensureAuthorized` and converts any thrown
     error into a call of the error handler;
  2. the proxy middleware's `onProxyReq` hook (lines 37-48);
  3. the error handler middleware (lines 58-68), of which only the status
     computation `err.status || 500` is relevant to response codes (the
     JSON-LD rendering is presentation and carries the message verbatim).

JavaScript values are modelled as follows: a thrown `Error` with an optional
numeric `status` property becomes the structure `Err`; `req.body` (either a
Buffer produced by `bodyParser.raw` or a parsed form object) becomes `JSBody`;
strings stand for Buffers, so Buffer contents are the UTF-8 bytes of the
string; the externally configured `isAuthorized` predicate is a parameter of
type `String → Except Err Bool`, where the `Bool` is the truthiness of the
value the JavaScript function returns (the code observes the return value only
through `if (!isAuth)`) and `Except.error` models a raised exception.
-/

namespace AuthWrapper

/-- A thrown JavaScript `Error`: app.js attaches an optional numeric `status`
property before throwing; a plain `new Error(...)` has none. -/
structure Err where
  status : Option Nat
  message : String
deriving Repr, DecidableEq

/-- The parsed request body as Express hands it to the middleware: a Buffer
(from `bodyParser.raw` for `application/sparql-query` bodies, modelled by its
UTF-8 string contents) or a plain object of fields (from the url-encoded
parser of the template; the empty object is the default when no parser ran).
The field list is keyed uniquely, mirroring a parsed form object. -/
inductive JSBody where
  | buffer (bytes : String)
  | obj (fields : List (String × String))
deriving Repr, DecidableEq

/-- An incoming HTTP request as consulted by app.js: `method`, the header
mapping (`req.get` looks names up case-insensitively), `req.query.query`
(the parsed `query` URL parameter, `none` when absent), and `req.body`. -/
structure Request where
  method : String
  headers : List (String × String)
  queryQuery : Option String
  body : JSBody
deriving Repr, DecidableEq

/-- Lower-casing of a header name, character by character, for the
case-insensitive comparison Express performs in `req.get`. -/
def jsToLower (s : String) : String :=
  ⟨s.data.map Char.toLower⟩

/-- Express `req.get(name)`: case-insensitive header lookup, `undefined`
(here `none`) when the header is absent. -/
def getHeader (req : Request) (name : String) : Option String :=
  (req.headers.find? (fun p => jsToLower p.1 == jsToLower name)).map (fun p => p.2)

/-- Truthiness test for a JavaScript string-or-undefined value as used in
`if (!x)`: `undefined` and the empty string are falsy. -/
def jsFalsy : Option String → Bool
  | none => true
  | some s => s == ""

/-- JavaScript `/pat/.test(s)` for the literal-only patterns of app.js: an
unanchored substring test, true exactly when `pat` occurs anywhere in `s`. -/
def jsRegexTest (pat : String) (s : String) : Bool :=
  decide (pat.toList <:+: s.toList)

/-- JavaScript regex test applied to the result of `req.get`: `test` coerces
its argument to a string, so `undefined` is tested as the string
"undefined". -/
def jsRegexTestOpt (pat : String) (o : Option String) : Bool :=
  jsRegexTest pat (o.getD "undefined")

/-- JavaScript `String.prototype.trim()`: strip leading and trailing
whitespace. -/
def jsTrim (s : String) : String :=
  ⟨((s.data.dropWhile Char.isWhitespace).reverse.dropWhile Char.isWhitespace).reverse⟩

/-- JavaScript `body.toString()`: a Buffer yields its (UTF-8) string
contents; a plain object yields "[object Object]". -/
def jsBodyToString : JSBody → String
  | .buffer s => s
  | .obj _ => "[object Object]"

/-- JavaScript `Object.keys(body).length`: a Buffer is array-like, so its
keys are its byte indices; an object has one key per field. -/
def jsBodyKeysCount : JSBody → Nat
  | .buffer s => s.utf8ByteSize
  | .obj fields => fields.length

/-- JavaScript `req.body?.query`: property access on the body; a Buffer has
no `query` property. -/
def jsBodyQueryField : JSBody → Option String
  | .buffer _ => none
  | .obj fields => ((fields.find? (fun p => p.1 == "query")).map (fun p => p.2))

/-- JavaScript `Buffer.byteLength(body)` for the raw-body branch of
`onProxyReq`. On a Buffer it is the byte count. On a plain object the real
call throws a TypeError; that case is unreachable in the claims proved here
(they hypothesise a Buffer body) and is modelled as 0. -/
def jsByteLength : JSBody → Nat
  | .buffer s => s.utf8ByteSize
  | .obj _ => 0

/-- An N3 DataFactory named node: `namedNode(s).value` is `s` verbatim. -/
structure NamedNode where
  value : String
deriving Repr, DecidableEq

/-- The N3 DataFactory `namedNode` constructor used at app.js line 22. -/
def namedNode (s : String) : NamedNode := ⟨s⟩

/-- Message of the error thrown at app.js line 179 (GET without a truthy
query URL parameter). -/
def msgGETQuery : String :=
  "When executing a GET request, the query should be supplied as a URL query parameter."

/-- Message of the error thrown at app.js line 184 (GET with a non-empty
body). -/
def msgGETBody : String :=
  "When executing a GET request, the body needs to be empty"

/-- Message of the error thrown at app.js line 144 (form-urlencoded POST
without a truthy query form field). -/
def msgFormParam : String :=
  "When querying with POST and Content-Type \"application/x-www-form-urlencoded\", you must supply the query as a form parameter."

/-- Message of the error thrown at app.js line 154 (sparql-query POST with
a blank body). -/
def msgRawBody : String :=
  "When querying with POST and Content-Type \"application/sparql-query\", you must supply the query as the body."

/-- Message of the error thrown at app.js line 161 (POST with an
unsupported Content-Type). -/
def msgContentType : String :=
  "Content-Type not valid, only \"application/x-www-form-urlencoded\" or \"application/sparql-query\" are accepted"

/-- Message of the error thrown at app.js line 116 (method other than GET
or POST). -/
def msgMethod : String :=
  "Not a correctly formed request for SPARQL queries."

/-- Message of the error thrown at app.js line 124 (missing Mu-Session-Id
header). -/
def msgSession : String :=
  "The required \"mu-session-id\" header could not be found. This is usually attached to the request by the mu-identifier."

/-- Message of the error thrown at app.js line 87 (authorization predicate
returned a falsy value). -/
def msgForbidden : String :=
  "This session is not authorized to execute SPARQL queries."

/-- app.js lines 177-186, `ensureGETSparqlParams`: a GET needs a truthy
`query` URL parameter and an empty body. Both thrown errors are plain
`new Error(...)` with no `status` property. -/
def ensureGETSparqlParams (req : Request) : Except Err Unit :=
  if jsFalsy req.queryQuery then
    .error ⟨none, msgGETQuery⟩
  else if jsBodyKeysCount req.body != 0 then
    .error ⟨none, msgGETBody⟩
  else
    .ok ()

/-- app.js lines 140-167, `ensurePOSTSparqlParams`: dispatch on the
Content-Type header by unanchored regex test (form-urlencoded first, then
sparql-query), each failure thrown with status 400. -/
def ensurePOSTSparqlParams (req : Request) : Except Err Unit :=
  let contentType := getHeader req "Content-Type"
  if jsRegexTestOpt "application/x-www-form-urlencoded" contentType then
    if jsFalsy (jsBodyQueryField req.body) then
      .error ⟨some 400, msgFormParam⟩
    else
      .ok ()
  else if jsRegexTestOpt "application/sparql-query" contentType then
    if jsTrim (jsBodyToString req.body) == "" then
      .error ⟨some 400, msgRawBody⟩
    else
      .ok ()
  else
    .error ⟨some 400, msgContentType⟩

/-- app.js lines 107-130, `ensureSparqlParams`: switch on the method (POST
and GET have shape checks, any other method throws with status 401), and
only when the shape check returned without throwing, require a truthy
Mu-Session-Id header (else throw with status 401). -/
def ensureSparqlParams (req : Request) : Except Err Unit :=
  match (match req.method with
    | "POST" => ensurePOSTSparqlParams req
    | "GET" => ensureGETSparqlParams req
    | _ => .error ⟨some 401, msgMethod⟩) with
  | .error e => .error e
  | .ok _ =>
    if jsFalsy (getHeader req "Mu-Session-Id") then
      .error ⟨some 401, msgSession⟩
    else
      .ok ()

/-- app.js lines 84-93, `ensureAuthorized`: call the configured
`isAuthorized` with `session.value`; a falsy result raises a 403 error; a
raised error from `isAuthorized` itself propagates unchanged. -/
def ensureAuthorized (isAuthorized : String → Except Err Bool)
    (session : NamedNode) : Except Err Unit :=
  match isAuthorized session.value with
  | .error e => .error e
  | .ok isAuth =>
    if !isAuth then
      .error ⟨some 403, msgForbidden⟩
    else
      .ok ()

/-- The terminal outcome of the middleware chain for one request: either
the request reaches the proxy middleware (`next()` with no error), or the
error handler renders a response with a status and a message. -/
inductive PResult where
  | forwarded (req : Request)
  | errorResponse (status : Nat) (message : String)
deriving Repr, DecidableEq

/-- app.js line 60, the error handler's status computation
`res.status(err.status || 500)`: an absent (or zero, hence falsy) status
becomes 500. -/
def errorStatus (e : Err) : Nat :=
  match e.status with
  | none => 500
  | some n => if n == 0 then 500 else n

/-- The part of the checking middleware after `ensureSparqlParams` returned
normally (app.js lines 22-24): build the session named node from the
Mu-Session-Id header value and run `ensureAuthorized`; a thrown error goes
to the error handler, otherwise the request is handed to the proxy. -/
def afterValidation (isAuthorized : String → Except Err Bool)
    (sessionStr : String) (req : Request) : PResult :=
  match ensureAuthorized isAuthorized (namedNode sessionStr) with
  | .error e => .errorResponse (errorStatus e) e.message
  | .ok _ => .forwarded req

/-- app.js lines 19-28 composed with the error handler (lines 58-68): the
checking/authorization middleware. `ensureSparqlParams` guarantees the
session header is present and non-empty before `req.get('Mu-Session-Id')`
is read, so the `getD ""` default is never observable. -/
def pipeline (isAuthorized : String → Except Err Bool) (req : Request) : PResult :=
  match ensureSparqlParams req with
  | .error e => .errorResponse (errorStatus e) e.message
  | .ok _ => afterValidation isAuthorized ((getHeader req "Mu-Session-Id").getD "") req

/-- What the `onProxyReq` hook (app.js lines 37-48) does to the outbound
proxied request: nothing when `req.body` is falsy; for a Content-Type whose
string contains "application/sparql-query", set Content-Length to
`Buffer.byteLength(body)` and write `body.toString()`; otherwise delegate
to the library helper `fixRequestBody`. -/
inductive ProxyAction where
  | noBody
  | rawWrite (contentLength : Nat) (writtenBody : String)
  | fixedRequestBody
deriving Repr, DecidableEq

/-- app.js lines 37-48, `onProxyReq`: `contentType` is the Content-Type
header of the outbound request, which the proxy middleware copied verbatim
from the incoming request. -/
def onProxyReq (body : Option JSBody) (contentType : Option String) : ProxyAction :=
  match body with
  | none => .noBody
  | some b =>
    if jsRegexTestOpt "application/sparql-query" contentType then
      .rawWrite (jsByteLength b) (jsBodyToString b)
    else
      .fixedRequestBody


/-! ## Helper lemmas -/

/-- The N3 named node stores the string it was built from, verbatim. -/
@[simp]
theorem namedNode_value (s : String) : (namedNode s).value = s := rfl

/-- An unanchored regex test succeeds on any string that contains the
pattern anywhere, whatever surrounds it. -/
theorem jsRegexTest_append (pat a b : String) :
    jsRegexTest pat (a ++ pat ++ b) = true := by
  have h : pat.toList <:+: (a ++ pat ++ b).toList := by
    refine ⟨a.toList, b.toList, ?_⟩
    simp [String.toList, String.data_append]
  simp [jsRegexTest, h]

/-! ## Claims -/

/-- C1: the claim states that a GET request with an absent or empty
`query` URL parameter, or a non-empty body, fails validation with response
status 400. Validation does fail on such requests, but both errors thrown
by `ensureGETSparqlParams` are plain `new Error(...)` without a `status`
property, so the error handler's `err.status || 500` renders status 500,
not the 400 the claim (and the repository README) state. This theorem
evaluates the pipeline at the two failing inputs: a GET with no `query`
parameter, and a GET with a non-empty `query` parameter but non-empty
body, both with a session header present; both respond 500. -/
theorem c1_get_shape_errors_report_500_not_400 :
    ∀ isAuthorized : String → Except Err Bool,
      pipeline isAuthorized
        { method := "GET",
          headers := [("Mu-Session-Id", "http://example/sessions/1")],
          queryQuery := none,
          body := .obj [] } = .errorResponse 500 msgGETQuery ∧
      pipeline isAuthorized
        { method := "GET",
          headers := [("Mu-Session-Id", "http://example/sessions/1")],
          queryQuery := some "SELECT * WHERE \\x7b ?s ?p ?o \\x7d",
          body := .obj [("a", "b")] } = .errorResponse 500 msgGETBody := by
  intro isAuthorized
  exact ⟨rfl, rfl⟩

/-- Reducing the pipeline when validation succeeds: control reaches the
session extraction and authorization stage. -/
theorem pipeline_ok (isAuthorized : String → Except Err Bool) (req : Request)
    (h : ensureSparqlParams req = .ok ()) :
    pipeline isAuthorized req =
      afterValidation isAuthorized ((getHeader req "Mu-Session-Id").getD "") req := by
  unfold pipeline
  rw [h]

/-- Reducing the pipeline when validation throws: the error handler renders
the thrown error. -/
theorem pipeline_error (isAuthorized : String → Except Err Bool) (req : Request)
    (e : Err) (h : ensureSparqlParams req = .error e) :
    pipeline isAuthorized req = .errorResponse (errorStatus e) e.message := by
  unfold pipeline
  rw [h]

/-- Reducing the post-validation stage when the authorization predicate
raises: the raised error goes to the error handler unchanged. -/
theorem afterValidation_error (isAuthorized : String → Except Err Bool)
    (s : String) (req : Request) (e : Err) (h : isAuthorized s = .error e) :
    afterValidation isAuthorized s req = .errorResponse (errorStatus e) e.message := by
  unfold afterValidation ensureAuthorized
  simp only [namedNode_value]
  rw [h]

/-- Reducing the post-validation stage when the authorization predicate
returns a falsy value: a 403 error is thrown and rendered. -/
theorem afterValidation_false (isAuthorized : String → Except Err Bool)
    (s : String) (req : Request) (h : isAuthorized s = .ok false) :
    afterValidation isAuthorized s req = .errorResponse 403 msgForbidden := by
  unfold afterValidation ensureAuthorized
  simp only [namedNode_value]
  rw [h]
  rfl

/-- Reducing the post-validation stage when the authorization predicate
returns a truthy value: the request is handed to the proxy middleware. -/
theorem afterValidation_true (isAuthorized : String → Except Err Bool)
    (s : String) (req : Request) (h : isAuthorized s = .ok true) :
    afterValidation isAuthorized s req = .forwarded req := by
  unfold afterValidation ensureAuthorized
  simp only [namedNode_value]
  rw [h]
  rfl

/-- C2: the claim states that the shape check runs before the session-header
check, that a malformed body is reported with the shape error status 400
even when the session header is also absent, and that a well-formed shape
without a session header is reported 401. The ordering itself holds, and so
do the POST-400 and the 401 outcomes (second and third conjunct below), but
the first conjunct shows the claim false as stated: a GET whose body is
malformed (non-empty) and whose session header is absent is reported with
the shape error, whose status is 500 — the GET shape errors carry no
status property — not 400. -/
theorem c2_shape_check_precedes_session_check_evaluated :
    ∀ isAuthorized : String → Except Err Bool,
      pipeline isAuthorized
        { method := "GET", headers := [], queryQuery := some "SELECT",
          body := .obj [("a", "b")] } = .errorResponse 500 msgGETBody ∧
      pipeline isAuthorized
        { method := "POST",
          headers := [("Content-Type", "application/x-www-form-urlencoded")],
          queryQuery := none, body := .obj [] } = .errorResponse 400 msgFormParam ∧
      pipeline isAuthorized
        { method := "POST",
          headers := [("Content-Type", "application/x-www-form-urlencoded")],
          queryQuery := none, body := .obj [("query", "SELECT")] } =
        .errorResponse 401 msgSession :=
  fun _ => ⟨rfl, rfl, rfl⟩

/-- C3: if the authorization predicate itself raises (a plain JavaScript
error, which carries no status property), the pipeline renders a 500
response with that error message, and the outcome is never a 403. -/
theorem c3_auth_error_propagates_as_500_never_403
    (isAuthorized : String → Except Err Bool) (req : Request) (e : Err)
    (hval : ensureSparqlParams req = .ok ())
    (herr : isAuthorized ((getHeader req "Mu-Session-Id").getD "") = .error e)
    (hstat : e.status = none) :
    pipeline isAuthorized req = .errorResponse 500 e.message ∧
    ∀ m, pipeline isAuthorized req ≠ .errorResponse 403 m := by
  have h : pipeline isAuthorized req = .errorResponse 500 e.message := by
    rw [pipeline_ok isAuthorized req hval,
      afterValidation_error isAuthorized _ req e herr]
    simp [errorStatus, hstat]
  refine ⟨h, fun m hc => ?_⟩
  rw [h] at hc
  simp at hc

/-- Request used to exercise the claim C3 theorem: a well-formed
form-urlencoded POST with a session header. -/
def c3req : Request :=
  { method := "POST",
    headers := [("Content-Type", "application/x-www-form-urlencoded"),
                ("Mu-Session-Id", "http://example/sessions/1")],
    queryQuery := none,
    body := .obj [("query", "SELECT ?s WHERE")] }

/-- Authorization predicate used to exercise the claim C3 theorem: it
raises a plain error on every session. -/
def c3auth : String → Except Err Bool :=
  fun _ => .error ⟨none, "connection to policy store refused"⟩

/-- Witness for the claim C3 theorem at a concrete request and predicate. -/
theorem c3_auth_error_witness :
    pipeline c3auth c3req = .errorResponse 500 "connection to policy store refused" ∧
    ∀ m, pipeline c3auth c3req ≠ .errorResponse 403 m :=
  c3_auth_error_propagates_as_500_never_403 c3auth c3req
    ⟨none, "connection to policy store refused"⟩ rfl rfl rfl

/-- C4: the proxy stage is reached only when the shape validator returned
without throwing and the authorization predicate returned a truthy value
for the session string taken from the request header; every validation or
authorization failure ends in an error response instead. -/
theorem c4_forwarded_implies_validated_and_authorized
    (isAuthorized : String → Except Err Bool) (req r : Request)
    (h : pipeline isAuthorized req = .forwarded r) :
    ensureSparqlParams req = .ok () ∧
    isAuthorized ((getHeader req "Mu-Session-Id").getD "") = .ok true := by
  cases hval : ensureSparqlParams req with
  | error e =>
    rw [pipeline_error isAuthorized req e hval] at h
    simp at h
  | ok u =>
    cases u
    cases hauth : isAuthorized ((getHeader req "Mu-Session-Id").getD "") with
    | error e =>
      rw [pipeline_ok isAuthorized req hval,
        afterValidation_error isAuthorized _ req e hauth] at h
      simp at h
    | ok b =>
      cases b with
      | false =>
        rw [pipeline_ok isAuthorized req hval,
          afterValidation_false isAuthorized _ req hauth] at h
        simp at h
      | true => exact ⟨rfl, rfl⟩

/-- Request used to exercise the claim C4 theorem: a well-formed raw
sparql-query POST with a session header. -/
def c4req : Request :=
  { method := "POST",
    headers := [("Content-Type", "application/sparql-query"),
                ("Mu-Session-Id", "http://example/sessions/2")],
    queryQuery := none,
    body := .buffer "SELECT ?s WHERE" }

/-- Authorization predicate used to exercise the claim C4 theorem: it
authorizes every session. -/
def c4auth : String → Except Err Bool := fun _ => .ok true

/-- Witness for the claim C4 theorem at a concrete forwarded request. -/
theorem c4_forwarded_witness :
    ensureSparqlParams c4req = .ok () ∧
    c4auth ((getHeader c4req "Mu-Session-Id").getD "") = .ok true :=
  c4_forwarded_implies_validated_and_authorized c4auth c4req c4req rfl

/-- C5: on an otherwise-valid request whose session the authorization
predicate rejects with a falsy value, the pipeline responds 403 with the
not-authorized message, and the request is never handed to the proxy. -/
theorem c5_auth_false_yields_403_never_forwarded
    (isAuthorized : String → Except Err Bool) (req : Request)
    (hval : ensureSparqlParams req = .ok ())
    (hfalse : isAuthorized ((getHeader req "Mu-Session-Id").getD "") = .ok false) :
    pipeline isAuthorized req = .errorResponse 403 msgForbidden ∧
    ∀ r, pipeline isAuthorized req ≠ .forwarded r := by
  have h : pipeline isAuthorized req = .errorResponse 403 msgForbidden := by
    rw [pipeline_ok isAuthorized req hval,
      afterValidation_false isAuthorized _ req hfalse]
  refine ⟨h, fun r hc => ?_⟩
  rw [h] at hc
  simp at hc

/-- Authorization predicate used to exercise the claim C5 theorem: it
denies every session. -/
def c5auth : String → Except Err Bool := fun _ => .ok false

/-- Witness for the claim C5 theorem at a concrete request (the well-formed
POST of `c3req`) with an always-denying predicate. -/
theorem c5_auth_false_witness :
    pipeline c5auth c3req = .errorResponse 403 msgForbidden ∧
    ∀ r, pipeline c5auth c3req ≠ .forwarded r :=
  c5_auth_false_yields_403_never_forwarded c5auth c3req rfl rfl

/-- C6: a POST whose Content-Type matches the form-urlencoded test and
whose body has no truthy `query` field is answered 400 with the
missing-form-parameter message, whatever the authorization predicate is:
the outcome is the same for every predicate, so the predicate is never
consulted and the request is never forwarded. -/
theorem c6_post_form_missing_query_400_auth_unconsulted
    (req : Request) (hm : req.method = "POST")
    (hct : jsRegexTestOpt "application/x-www-form-urlencoded" (getHeader req "Content-Type") = true)
    (hq : jsFalsy (jsBodyQueryField req.body) = true) :
    ∀ isAuthorized : String → Except Err Bool,
      pipeline isAuthorized req = .errorResponse 400 msgFormParam := by
  intro isAuthorized
  have hpost : ensurePOSTSparqlParams req = .error ⟨some 400, msgFormParam⟩ := by
    unfold ensurePOSTSparqlParams
    simp [hct, hq]
  have hshape : ensureSparqlParams req = .error ⟨some 400, msgFormParam⟩ := by
    unfold ensureSparqlParams
    rw [hm]
    simp [hpost]
  rw [pipeline_error isAuthorized req _ hshape]
  rfl

/-- Request used to exercise the claim C6 theorem: a form-urlencoded POST
(with a charset parameter on the Content-Type) whose decoded body has no
`query` field, with a session header present. -/
def c6req : Request :=
  { method := "POST",
    headers := [("Content-Type", "application/x-www-form-urlencoded; charset=UTF-8"),
                ("Mu-Session-Id", "http://example/sessions/1")],
    queryQuery := none,
    body := .obj [("update", "DELETE WHERE")] }

/-- Witness for the claim C6 theorem: at the concrete request the response
is the same 400 under an always-allowing and an always-denying predicate. -/
theorem c6_post_form_missing_query_witness :
    pipeline c4auth c6req = .errorResponse 400 msgFormParam ∧
    pipeline c5auth c6req = .errorResponse 400 msgFormParam :=
  ⟨c6_post_form_missing_query_400_auth_unconsulted c6req rfl rfl rfl c4auth,
   c6_post_form_missing_query_400_auth_unconsulted c6req rfl rfl rfl c5auth⟩

/-- C7: a request whose method is neither GET nor POST fails validation
with status 401 (the preserved oddity, not 405) and the
not-a-correctly-formed-request message, whatever the predicate is. -/
theorem c7_unsupported_method_401
    (req : Request) (hg : req.method ≠ "GET") (hp : req.method ≠ "POST") :
    ∀ isAuthorized : String → Except Err Bool,
      pipeline isAuthorized req = .errorResponse 401 msgMethod := by
  intro isAuthorized
  have hshape : ensureSparqlParams req = .error ⟨some 401, msgMethod⟩ := by
    unfold ensureSparqlParams
    have hinner : (match req.method with
        | "POST" => ensurePOSTSparqlParams req
        | "GET" => ensureGETSparqlParams req
        | _ => (.error ⟨some 401, msgMethod⟩ : Except Err Unit)) =
        .error ⟨some 401, msgMethod⟩ := by
      split
      · rename_i h
        exact absurd h hp
      · rename_i h
        exact absurd h hg
      · rfl
    rw [hinner]
  rw [pipeline_error isAuthorized req _ hshape]
  rfl

/-- Request used to exercise the claim C7 theorem: a PUT request that is
otherwise fully well-formed (session header present). -/
def c7req : Request :=
  { method := "PUT",
    headers := [("Content-Type", "application/sparql-query"),
                ("Mu-Session-Id", "http://example/sessions/1")],
    queryQuery := none,
    body := .buffer "SELECT ?s WHERE" }

/-- Witness for the claim C7 theorem at the concrete PUT request. -/
theorem c7_unsupported_method_witness :
    pipeline c4auth c7req = .errorResponse 401 msgMethod :=
  c7_unsupported_method_401 c7req (by decide) (by decide) c4auth

/-- C8: for a forwarded request whose body is the raw Buffer of a
sparql-query payload, the onProxyReq hook writes exactly the buffered
bytes back out and sets Content-Length to the byte length of that body. -/
theorem c8_raw_body_reemitted_verbatim_with_byte_length
    (isAuthorized : String → Except Err Bool) (req : Request) (s : String)
    (_hfwd : pipeline isAuthorized req = .forwarded req)
    (hbody : req.body = .buffer s)
    (hct : jsRegexTestOpt "application/sparql-query" (getHeader req "Content-Type") = true) :
    onProxyReq (some req.body) (getHeader req "Content-Type") =
      .rawWrite s.utf8ByteSize s := by
  rw [hbody]
  unfold onProxyReq
  simp [hct, jsByteLength, jsBodyToString]

/-- Witness for the claim C8 theorem: the raw POST of `c4req` is forwarded
under the always-allowing predicate, and the hook re-emits its 15-byte
body unchanged with Content-Length 15. -/
theorem c8_raw_body_witness :
    onProxyReq (some c4req.body) (getHeader c4req "Content-Type") =
      .rawWrite 15 "SELECT ?s WHERE" :=
  c8_raw_body_reemitted_verbatim_with_byte_length c4auth c4req "SELECT ?s WHERE"
    rfl rfl rfl

/-- C9: when validation passes with the Mu-Session-Id header holding `s`,
the pipeline outcome depends on the authorization predicate only through
its value at exactly the string `s` — the header value is passed verbatim,
with no parsing or rewriting — and a predicate that authorizes precisely
the string `s` forwards the request. -/
theorem c9_session_header_passed_verbatim
    (req : Request) (s : String)
    (hhdr : getHeader req "Mu-Session-Id" = some s)
    (hval : ensureSparqlParams req = .ok ()) :
    (∀ a1 a2 : String → Except Err Bool,
      a1 s = a2 s → pipeline a1 req = pipeline a2 req) ∧
    pipeline (fun t => .ok (t == s)) req = .forwarded req := by
  have key : ∀ a : String → Except Err Bool,
      pipeline a req = afterValidation a s req := by
    intro a
    rw [pipeline_ok a req hval, hhdr]
    rfl
  constructor
  · intro a1 a2 hagree
    rw [key a1, key a2]
    unfold afterValidation ensureAuthorized
    simp only [namedNode_value]
    rw [hagree]
  · rw [key]
    exact afterValidation_true _ s req (by simp)

/-- Witness for the claim C9 theorem at the concrete request `c3req`,
whose session header holds the session IRI string. -/
theorem c9_session_header_witness :
    (∀ a1 a2 : String → Except Err Bool,
      a1 "http://example/sessions/1" = a2 "http://example/sessions/1" →
      pipeline a1 c3req = pipeline a2 c3req) ∧
    pipeline (fun t => .ok (t == "http://example/sessions/1")) c3req =
      .forwarded c3req :=
  c9_session_header_passed_verbatim c3req "http://example/sessions/1" rfl rfl

/-- Request showing the claim C10 false as stated: its Content-Type
contains "application/sparql-query" and its raw body is a non-blank query,
yet it is not accepted for the sparql-query shape. -/
def c10req : Request :=
  { method := "POST",
    headers := [("Content-Type",
                 "application/sparql-query, application/x-www-form-urlencoded"),
                ("Mu-Session-Id", "http://example/sessions/3")],
    queryQuery := none,
    body := .buffer "SELECT ?s WHERE" }

/-- C10 counterexample: the claim says any Content-Type containing
"application/sparql-query" anywhere is accepted for the raw-query shape;
but when the value also contains "application/x-www-form-urlencoded", the
form test fires first, and this request with a non-blank raw body is
rejected 400 with the form-parameter message instead of being accepted. -/
theorem c10_dual_substring_counterexample :
    jsRegexTestOpt "application/sparql-query" (getHeader c10req "Content-Type") = true ∧
    jsTrim (jsBodyToString c10req.body) ≠ "" ∧
    ensurePOSTSparqlParams c10req = .error ⟨some 400, msgFormParam⟩ :=
  ⟨rfl, by decide, rfl⟩

/-- C10 amended: for a POST, the Content-Type dispatch is an unanchored
substring test with the form-urlencoded test taking precedence: a value
containing "application/x-www-form-urlencoded" anywhere is handled by the
form shape; a value containing "application/sparql-query" anywhere but not
the form pattern is handled by the raw-query shape; a missing Content-Type
header falls to the 400 unsupported-content-type branch. -/
theorem c10_amended_substring_dispatch_form_precedence (req : Request) :
    (∀ a b : String,
      getHeader req "Content-Type" =
        some (a ++ "application/x-www-form-urlencoded" ++ b) →
      ensurePOSTSparqlParams req =
        if jsFalsy (jsBodyQueryField req.body) then .error ⟨some 400, msgFormParam⟩
        else .ok ()) ∧
    (∀ a b : String,
      getHeader req "Content-Type" =
        some (a ++ "application/sparql-query" ++ b) →
      jsRegexTestOpt "application/x-www-form-urlencoded"
        (getHeader req "Content-Type") = false →
      ensurePOSTSparqlParams req =
        if jsTrim (jsBodyToString req.body) == "" then .error ⟨some 400, msgRawBody⟩
        else .ok ()) ∧
    (getHeader req "Content-Type" = none →
      ensurePOSTSparqlParams req = .error ⟨some 400, msgContentType⟩) := by
  refine ⟨?_, ?_, ?_⟩
  · intro a b hct
    have h1 : jsRegexTestOpt "application/x-www-form-urlencoded"
        (getHeader req "Content-Type") = true := by
      rw [hct]
      exact jsRegexTest_append _ a b
    unfold ensurePOSTSparqlParams
    simp [h1]
  · intro a b hct hform
    have h2 : jsRegexTestOpt "application/sparql-query"
        (getHeader req "Content-Type") = true := by
      rw [hct]
      exact jsRegexTest_append _ a b
    unfold ensurePOSTSparqlParams
    simp [hform, h2]
  · intro hnone
    have e1 : jsRegexTestOpt "application/x-www-form-urlencoded" (none : Option String) = false := rfl
    have e2 : jsRegexTestOpt "application/sparql-query" (none : Option String) = false := rfl
    unfold ensurePOSTSparqlParams
    simp [hnone, e1, e2]

/-- Form-urlencoded POST with a charset parameter and a truthy query
field, exercising the first leg of the amended claim C10 theorem. -/
def c10w1 : Request :=
  { method := "POST",
    headers := [("Content-Type", "application/x-www-form-urlencoded; charset=UTF-8")],
    queryQuery := none,
    body := .obj [("query", "SELECT ?s WHERE")] }

/-- Raw sparql-query POST with a charset parameter and a non-blank body,
exercising the second leg of the amended claim C10 theorem. -/
def c10w2 : Request :=
  { method := "POST",
    headers := [("Content-Type", "application/sparql-query; charset=UTF-8")],
    queryQuery := none,
    body := .buffer "SELECT ?s WHERE" }

/-- POST without any Content-Type header, exercising the third leg of the
amended claim C10 theorem. -/
def c10w3 : Request :=
  { method := "POST",
    headers := [("Mu-Session-Id", "http://example/sessions/1")],
    queryQuery := none,
    body := .obj [] }

/-- Witness for the amended claim C10 theorem: each leg applied at a
concrete request. -/
theorem c10_amended_witness :
    ensurePOSTSparqlParams c10w1 = .ok () ∧
    ensurePOSTSparqlParams c10w2 = .ok () ∧
    ensurePOSTSparqlParams c10w3 = .error ⟨some 400, msgContentType⟩ :=
  ⟨(c10_amended_substring_dispatch_form_precedence c10w1).1 "" "; charset=UTF-8" rfl,
   (c10_amended_substring_dispatch_form_precedence c10w2).2.1 "" "; charset=UTF-8" rfl rfl,
   (c10_amended_substring_dispatch_form_precedence c10w3).2.2 rfl⟩

end AuthWrapper
